import Mathlib

/-!
Verification of the renrakucho (class contact notebook) application core.

The JavaScript source (src/src/App.jsx) is shallowly embedded below:
strings are `List Char`, React component cell construction becomes pure
list-building functions, and the Firestore-backed handlers become pure
functions over an explicit store argument returning an outcome record that
says which state mutations and persistence calls were made.
-/

namespace Renrakucho

/-- A classified unit emitted by `parseTextToChars`: `char` holds the covered
characters (two for a digit pair, one otherwise) and `isTateChuYoko` is the
paired-digit flag (tate-chu-yoko = rotated horizontal rendering). -/
structure CharUnit where
  char : List Char
  isTateChuYoko : Bool
deriving DecidableEq

/-- Embedding of `parseTextToChars` (App.jsx lines 69-82): scan left to right
with the regex pattern; at each position two consecutive ASCII digits become one
paired unit, otherwise a single character becomes one unpaired unit. -/
def parseTextToChars : List Char → List CharUnit
  | a :: b :: rest =>
    if a.isDigit && b.isDigit then
      { char := [a, b], isTateChuYoko := true } :: parseTextToChars rest
    else
      { char := [a], isTateChuYoko := false } :: parseTextToChars (b :: rest)
  | [a] => [{ char := [a], isTateChuYoko := false }]
  | [] => []

/-- The `charData` argument of `GridCell`: `null`, a marker object
`\x7bisMark: true, markType\x7d`, or a glyph object from the segmenter. -/
inductive Cell where
  | blank
  | markerCell (markType : String)
  | glyphCell (u : CharUnit)
deriving DecidableEq

/-- `GRID_ROWS` constant (App.jsx line 25). -/
def GRID_ROWS : Nat := 12

/-- A column record as stored in the `columns` array (App.jsx lines 32-41). -/
structure ContentRecord where
  id : Nat
  type : String
  text : List Char
deriving DecidableEq

/-- Embedding of the cell construction in `NotebookColumn` (App.jsx lines
133-139): cell 0 is the marker, cells `i ≥ 1` take `textChars[i-1] || null`. -/
def buildColumn (data : ContentRecord) : List Cell :=
  let textChars := parseTextToChars data.text
  (List.range GRID_ROWS).map fun i =>
    if i = 0 then Cell.markerCell data.type
    else
      match textChars[i - 1]? with
      | some u => Cell.glyphCell u
      | none => Cell.blank

/-- `WEEKDAYS` table (App.jsx line 43), Sunday-first. Each label is a
one-character string. -/
def WEEKDAYS : List (List Char) :=
  [['日'], ['月'], ['火'], ['水'], ['木'], ['金'], ['土']]

/-- A calendar date, standing for the `YYYY-MM-DD` date string of the app
(month and day 1-based). -/
structure DateTriple where
  year : Nat
  month : Nat
  day : Nat
deriving DecidableEq

/-- Gregorian leap-year rule, as implemented by the JavaScript `Date` object
the source relies on. -/
def isLeapYear (y : Nat) : Bool :=
  (y % 4 = 0 && y % 100 ≠ 0) || y % 400 = 0

/-- Number of days in a Gregorian month, as used by `Date` rollover. -/
def daysInMonth (y m : Nat) : Nat :=
  if m = 2 then (if isLeapYear y then 29 else 28)
  else if m = 4 || m = 6 || m = 9 || m = 11 then 30
  else 31

/-- Gregorian day of week (0 = Sunday), the value of `Date.prototype.getDay`
for the parsed date string; Sakamoto's method, valid for `year ≥ 1`. -/
def dayOfWeek (y m d : Nat) : Nat :=
  let t := [0, 3, 2, 5, 0, 3, 5, 1, 4, 6, 2, 4]
  let y2 := if m < 3 then y - 1 else y
  (y2 + y2 / 4 - y2 / 100 + y2 / 400 + t.getD (m - 1) 0 + d) % 7

/-- Decimal digit characters of `n`, most significant first: the characters of
JavaScript template interpolation of a number. Fuel-based so that it reduces by
evaluation; `natToChars` supplies enough fuel. -/
def natDigitsAux : Nat → Nat → List Char
  | _, 0 => []
  | n, fuel + 1 =>
    if n < 10 then [Char.ofNat (48 + n)]
    else natDigitsAux (n / 10) fuel ++ [Char.ofNat (48 + n % 10)]

/-- Decimal representation of a natural number as characters. -/
def natToChars (n : Nat) : List Char := natDigitsAux n (n + 1)

/-- Result record of `formatDateDisplay`. -/
structure DateDisplay where
  date : List Char
  weekday : List Char
deriving DecidableEq

/-- Embedding of `formatDateDisplay` (App.jsx lines 57-67): the month/day label
with no zero padding, and the weekday from the Sunday-first table. -/
def formatDateDisplay (dt : DateTriple) : DateDisplay :=
  { date := natToChars dt.month ++ ['月'] ++ natToChars dt.day ++ ['日'],
    weekday := WEEKDAYS.getD (dayOfWeek dt.year dt.month dt.day) [] }

/-- Embedding of the cell construction in `DateColumn` (App.jsx lines
151-160): two leading blanks, the segmented month/day label, one blank
separator, the segmented weekday label, then `cellsRaw[i] || null` over the 12
grid rows. -/
def buildDateColumn (dt : DateTriple) : List Cell :=
  let fd := formatDateDisplay dt
  let dateChars := parseTextToChars fd.date
  let weekChars := parseTextToChars fd.weekday
  let cellsRaw :=
    [Cell.blank, Cell.blank] ++ dateChars.map Cell.glyphCell
      ++ [Cell.blank] ++ weekChars.map Cell.glyphCell
  (List.range GRID_ROWS).map fun i => cellsRaw.getD i Cell.blank

/-- Placeholder record used only to give `List.getD` a default; under the
in-bounds hypotheses of the theorems it is never returned. -/
def dummyRecord : ContentRecord := { id := 0, type := "", text := [] }

/-- Embedding of `moveRow` (App.jsx lines 355-362) for a list position
`index` (every call site passes an index of the `columns` array). The result
is `none` when the guard `targetIndex < 0 || targetIndex >= length` fires (the
handler returns early: no state change, no persist), and `some newColumns`
when the destructuring swap runs followed by `setColumns`/`saveData`. -/
def moveRow (columns : List ContentRecord) (index : Nat) (direction : Int) :
    Option (List ContentRecord) :=
  let targetIndex : Int := (index : Int) + direction
  if targetIndex < 0 || (columns.length : Int) ≤ targetIndex then none
  else
    let t := targetIndex.toNat
    some ((columns.set index (columns.getD t dummyRecord)).set t
      (columns.getD index dummyRecord))

/-- Outcome of `handleCopyPreviousDay`: the columns state after the handler,
the argument of the `saveData` call when one was made, and whether the
previous day's document existed. -/
structure CopyOutcome where
  columns : List ContentRecord
  persisted : Option (List ContentRecord)
  foundPrevious : Bool
deriving DecidableEq

/-- The prior calendar day, as computed by
`d.setDate(d.getDate() - 1)` (App.jsx lines 275-280) with Gregorian
rollover. -/
def prevDay (dt : DateTriple) : DateTriple :=
  if dt.day > 1 then ⟨dt.year, dt.month, dt.day - 1⟩
  else if dt.month > 1 then ⟨dt.year, dt.month - 1, daysInMonth dt.year (dt.month - 1)⟩
  else ⟨dt.year - 1, 12, 31⟩

/-- Embedding of `handleCopyPreviousDay` (App.jsx lines 271-298) past the
admin/confirm guard: `store` is the `class_notes` collection (date to stored
`columns`), `columns` the current state. When the previous day's document
exists its columns replace the state and are persisted; otherwise only the
not-found alert is shown. -/
def handleCopyPreviousDay (store : DateTriple → Option (List ContentRecord))
    (currentDate : DateTriple) (columns : List ContentRecord) : CopyOutcome :=
  match store (prevDay currentDate) with
  | some prevData => { columns := prevData, persisted := some prevData, foundPrevious := true }
  | none => { columns := columns, persisted := none, foundPrevious := false }

/-- The character set removed by JavaScript `String.prototype.trim`:
WhiteSpace (tab, VT, FF, space, NBSP, ZWNBSP, Unicode Zs) and
LineTerminator (LF, CR, LS, PS). -/
def isJsStrWhiteSpace (c : Char) : Bool :=
  c.val = 9 || c.val = 10 || c.val = 11 || c.val = 12 || c.val = 13 ||
  c.val = 32 || c.val = 0xa0 || c.val = 0x1680 ||
  (0x2000 ≤ c.val && c.val ≤ 0x200a) ||
  c.val = 0x2028 || c.val = 0x2029 || c.val = 0x202f || c.val = 0x205f ||
  c.val = 0x3000 || c.val = 0xfeff

/-- JavaScript `String.prototype.trim`: strip leading and trailing
whitespace. -/
def jsTrim (s : List Char) : List Char :=
  ((s.dropWhile isJsStrWhiteSpace).reverse.dropWhile isJsStrWhiteSpace).reverse

/-- The server-assigned timestamp sentinel written by `serverTimestamp()`. -/
inductive Timestamp where
  | server
deriving DecidableEq

/-- A document of the `checks` subcollection (App.jsx lines 309-312). -/
structure AckRecord where
  name : List Char
  timestamp : Timestamp
deriving DecidableEq

/-- Outcome of `handleCheckStamp`: whether the validation alert fired, the
`localStorage` write, the `addDoc` append (with its target date), and the
`setHasChecked(true)` call. -/
structure StampOutcome where
  validationError : Bool
  savedViewerName : Option (List Char)
  appendedCheck : Option (DateTriple × AckRecord)
  hasCheckedSet : Bool
deriving DecidableEq

/-- Embedding of `handleCheckStamp` (App.jsx lines 300-318): an empty or
whitespace-only name alerts and returns before any store access; otherwise the
name is remembered locally and a check record with a server timestamp is
appended to the current date's `checks` subcollection. -/
def handleCheckStamp (currentDate : DateTriple) (checkName : List Char) :
    StampOutcome :=
  if jsTrim checkName = [] then
    { validationError := true, savedViewerName := none,
      appendedCheck := none, hasCheckedSet := false }
  else
    { validationError := false, savedViewerName := some checkName,
      appendedCheck := some (currentDate, ⟨checkName, Timestamp.server⟩),
      hasCheckedSet := true }

/-- A resolved `CircleMark`: the glyph and color classes of a marker. -/
structure CircleMarkSpec where
  glyph : Char
  colorClass : String
deriving DecidableEq

/-- The marker resolution of `GridCell` (App.jsx lines 104-108): only the four
marked categories yield a `CircleMark`; every other `markType` leaves
`content` null. -/
def markContent (markType : String) : Option CircleMarkSpec :=
  if markType = "homework" then some ⟨'し', "text-indigo-600 border-indigo-600"⟩
  else if markType = "contact" then some ⟨'れ', "text-emerald-600 border-emerald-600"⟩
  else if markType = "belongings" then some ⟨'も', "text-rose-600 border-rose-600"⟩
  else if markType = "handout" then some ⟨'手', "text-amber-600 border-amber-600"⟩
  else none

/-- The rendered content of one grid cell. -/
inductive CellContent where
  | empty
  | circleMark (mark : CircleMarkSpec)
  | glyphSpan (char : List Char) (isTateChuYoko : Bool) (uprightAlphanumeric : Bool)
deriving DecidableEq

/-- Embedding of the `content` computed by `GridCell` (App.jsx lines 96-125):
blank cells and unresolved markers render nothing; glyph cells render a span
whose orientation follows `isTateChuYoko` and the ASCII alphanumeric test. -/
def renderGridCell : Cell → CellContent
  | Cell.blank => CellContent.empty
  | Cell.markerCell mt =>
    match markContent mt with
    | some m => CellContent.circleMark m
    | none => CellContent.empty
  | Cell.glyphCell u =>
    CellContent.glyphSpan u.char u.isTateChuYoko
      (!u.isTateChuYoko && u.char.any Char.isAlphanum)

/-- Helper: the units of `parseTextToChars` concatenate back to the input. -/
theorem segmenter_chars_flatten :
    ∀ l : List Char, ((parseTextToChars l).map CharUnit.char).flatten = l
  | [] => by simp [parseTextToChars]
  | [a] => by simp [parseTextToChars]
  | a :: b :: rest => by
    by_cases h : (a.isDigit && b.isDigit) = true
    · have ih := segmenter_chars_flatten rest
      simp [parseTextToChars, h, ih]
    · have ih := segmenter_chars_flatten (b :: rest)
      simp only [parseTextToChars, h, if_false]
      simpa using ih

/-- C1: for every input string, concatenating the `char` fields of the Text
Segmenter's output units (a paired unit contributing its two characters, a
single unit its one character) reconstructs the input exactly; no character is
dropped or duplicated, and the total consumed character count equals the
input's length. -/
theorem segmenter_reconstructs_input (l : List Char) :
    ((parseTextToChars l).map CharUnit.char).flatten = l ∧
    ((parseTextToChars l).map fun u => u.char.length).sum = l.length := by
  refine ⟨segmenter_chars_flatten l, ?_⟩
  have h := congrArg List.length (segmenter_chars_flatten l)
  simpa [List.length_flatten, List.map_map, Function.comp] using h

/-- C2: the Text Segmenter scans left to right, greedily and non-overlappingly
pairing exactly two consecutive ASCII decimal digits into one paired unit
(advancing two characters) and otherwise emitting one single-character unpaired
unit (advancing one); in particular "1234" gives pairs "12","34", "123" gives
the pair "12" then the single "3", and "a12b" gives singles "a","b" around the
pair "12". -/
theorem segmenter_greedy_pairing :
    (∀ (a b : Char) (rest : List Char), a.isDigit = true → b.isDigit = true →
        parseTextToChars (a :: b :: rest) =
          { char := [a, b], isTateChuYoko := true } :: parseTextToChars rest) ∧
    (∀ (a b : Char) (rest : List Char), ¬(a.isDigit = true ∧ b.isDigit = true) →
        parseTextToChars (a :: b :: rest) =
          { char := [a], isTateChuYoko := false } :: parseTextToChars (b :: rest)) ∧
    (∀ a : Char, parseTextToChars [a] = [{ char := [a], isTateChuYoko := false }]) ∧
    parseTextToChars ['1', '2', '3', '4'] =
      [{ char := ['1', '2'], isTateChuYoko := true },
       { char := ['3', '4'], isTateChuYoko := true }] ∧
    parseTextToChars ['1', '2', '3'] =
      [{ char := ['1', '2'], isTateChuYoko := true },
       { char := ['3'], isTateChuYoko := false }] ∧
    parseTextToChars ['a', '1', '2', 'b'] =
      [{ char := ['a'], isTateChuYoko := false },
       { char := ['1', '2'], isTateChuYoko := true },
       { char := ['b'], isTateChuYoko := false }] := by
  refine ⟨?_, ?_, ?_, by decide, by decide, by decide⟩
  · intro a b rest ha hb
    simp [parseTextToChars, ha, hb]
  · intro a b rest h
    have hb : ¬(a.isDigit && b.isDigit) = true := by
      simpa [Bool.and_eq_true] using h
    simp [parseTextToChars, hb]
  · intro a
    simp [parseTextToChars]

/-- Witness for C2 at a concrete input: the greedy-pair equation applied at
'5', '6' followed by a lone '7'. -/
theorem segmenter_greedy_pairing_check :
    parseTextToChars ['5', '6', '7'] =
      [{ char := ['5', '6'], isTateChuYoko := true },
       { char := ['7'], isTateChuYoko := false }] := by
  have h := segmenter_greedy_pairing.1 '5' '6' ['7'] (by decide) (by decide)
  rw [h]
  rfl

/-- C10: every paired unit emitted by the Text Segmenter carries exactly two
ASCII decimal digits, and every unpaired unit exactly one character; no other
unit shape is ever produced. -/
theorem segmenter_unit_shapes :
    ∀ l : List Char, ∀ u ∈ parseTextToChars l,
      (u.isTateChuYoko = true → u.char.length = 2 ∧ u.char.all Char.isDigit = true) ∧
      (u.isTateChuYoko = false → u.char.length = 1)
  | [] => by simp [parseTextToChars]
  | [a] => by
    intro u hu
    simp only [parseTextToChars, List.mem_singleton] at hu
    subst hu
    exact ⟨fun hf => by simp at hf, fun _ => rfl⟩
  | a :: b :: rest => by
    intro u hu
    by_cases h : (a.isDigit && b.isDigit) = true
    · have heq : parseTextToChars (a :: b :: rest) =
          { char := [a, b], isTateChuYoko := true } :: parseTextToChars rest := by
        simp [parseTextToChars, h]
      rw [heq] at hu
      rcases List.mem_cons.mp hu with rfl | hu
      · refine ⟨fun _ => ⟨rfl, ?_⟩, fun hf => by simp at hf⟩
        have hab := Bool.and_eq_true _ _ |>.mp h
        simp [hab.1, hab.2]
      · exact segmenter_unit_shapes rest u hu
    · have heq : parseTextToChars (a :: b :: rest) =
          { char := [a], isTateChuYoko := false } :: parseTextToChars (b :: rest) := by
        simp [parseTextToChars, h]
      rw [heq] at hu
      rcases List.mem_cons.mp hu with rfl | hu
      · exact ⟨fun hf => by simp at hf, fun _ => rfl⟩
      · exact segmenter_unit_shapes (b :: rest) u hu

/-- Witness for C10 at a concrete input: the paired unit produced from "12"
has two digit characters. -/
theorem segmenter_unit_shapes_check :
    ({ char := ['1', '2'], isTateChuYoko := true } : CharUnit).char.length = 2 ∧
    ({ char := ['1', '2'], isTateChuYoko := true } : CharUnit).char.all Char.isDigit = true := by
  have h := segmenter_unit_shapes ['1', '2']
    { char := ['1', '2'], isTateChuYoko := true } (by decide)
  exact h.1 rfl

/-- Helper: the twelve row indices of the grid. -/
theorem range_twelve : List.range GRID_ROWS = [0, 1, 2, 3, 4, 5, 6, 7, 8, 9, 10, 11] := by
  decide

/-- C3: for every content record and every text length, `buildColumn` returns
exactly 12 cells; cell 0 is the marker cell for the record's category, and
cells 1..11 are the first 11 segmented units mapped to glyph cells, shortfall
filled by blank cells and units beyond the 11th discarded; the function is
total, so no error is ever raised. -/
theorem buildColumn_twelve_cells (data : ContentRecord) :
    (buildColumn data).length = GRID_ROWS ∧
    (buildColumn data).head? = some (Cell.markerCell data.type) ∧
    ∀ i : Nat, i < GRID_ROWS - 1 →
      (buildColumn data)[i + 1]? =
        some (match (parseTextToChars data.text)[i]? with
          | some u => Cell.glyphCell u
          | none => Cell.blank) := by
  refine ⟨by simp [buildColumn], ?_, ?_⟩
  · simp only [buildColumn, range_twelve, List.map_cons, List.map_nil, List.head?_cons]
    rfl
  · intro i hi
    simp only [buildColumn, range_twelve, List.map_cons, List.map_nil]
    have hi11 : i < 11 := hi
    interval_cases i <;> rfl

/-- Witness for C3 at a concrete record: a 3-unit text fills cells 1..3, cell
4 is blank. -/
theorem buildColumn_twelve_cells_check :
    (buildColumn { id := 1, type := "homework", text := ['あ', '1', '2', 'い'] })[4]? =
      some Cell.blank ∧
    (buildColumn { id := 1, type := "homework", text := ['あ', '1', '2', 'い'] })[2]? =
      some (Cell.glyphCell { char := ['1', '2'], isTateChuYoko := true }) := by
  have h3 := (buildColumn_twelve_cells
    { id := 1, type := "homework", text := ['あ', '1', '2', 'い'] }).2.2 3 (by decide)
  have h1 := (buildColumn_twelve_cells
    { id := 1, type := "homework", text := ['あ', '1', '2', 'い'] }).2.2 1 (by decide)
  exact ⟨h3.trans (by decide), h1.trans (by decide)⟩

/-- Helper: for every calendar month and day, the segmented month/day label
consists of exactly four units (the month digits pair when two, then 月, then
the day digits, then 日). -/
theorem dateLabel_four_units :
    ∀ m, m < 13 → ∀ d, d < 32 → 0 < m → 0 < d →
      (parseTextToChars (natToChars m ++ ['月'] ++ natToChars d ++ ['日'])).length = 4 := by
  decide

/-- Helper: a list of length four is a four-element literal. -/
theorem exists_four_of_length {α : Type} (l : List α) (h : l.length = 4) :
    ∃ a b c d, l = [a, b, c, d] := by
  rcases l with _ | ⟨a, _ | ⟨b, _ | ⟨c, _ | ⟨d, _ | ⟨e, t⟩⟩⟩⟩⟩
  · simp at h
  · simp at h
  · simp at h
  · simp at h
  · exact ⟨a, b, c, d, rfl⟩
  · simp at h

/-- Helper: every entry of the weekday table is a single character. -/
theorem weekday_single_char (k : Nat) (h : k < 7) :
    ∃ c, WEEKDAYS.getD k [] = [c] := by
  interval_cases k <;> exact ⟨_, rfl⟩

/-- C4: for every calendar date, `buildDateColumn` produces exactly 12 cells
in the order 2 leading blanks, the segmented month/day label (1-based, no
zero-padding), 1 blank separator, the segmented weekday label from the
Sunday-first table, padded with blanks to 12 (always exactly 4 trailing
blanks, the label being 4 units and the weekday 1). -/
theorem buildDateColumn_layout (y m d : Nat)
    (_hy : 1 ≤ y) (hm1 : 1 ≤ m) (hm2 : m ≤ 12) (hd1 : 1 ≤ d) (hd2 : d ≤ 31) :
    (formatDateDisplay ⟨y, m, d⟩).date = natToChars m ++ ['月'] ++ natToChars d ++ ['日'] ∧
    (formatDateDisplay ⟨y, m, d⟩).weekday = WEEKDAYS.getD (dayOfWeek y m d) [] ∧
    (buildDateColumn ⟨y, m, d⟩).length = GRID_ROWS ∧
    buildDateColumn ⟨y, m, d⟩ =
      [Cell.blank, Cell.blank]
        ++ (parseTextToChars (formatDateDisplay ⟨y, m, d⟩).date).map Cell.glyphCell
        ++ [Cell.blank]
        ++ (parseTextToChars (formatDateDisplay ⟨y, m, d⟩).weekday).map Cell.glyphCell
        ++ List.replicate 4 Cell.blank := by
  have hw : dayOfWeek y m d < 7 := by
    simp only [dayOfWeek]
    omega
  obtain ⟨w, hwc⟩ := weekday_single_char (dayOfWeek y m d) hw
  have hwc2 : (formatDateDisplay ⟨y, m, d⟩).weekday = [w] := hwc
  have hlen : (parseTextToChars ((formatDateDisplay ⟨y, m, d⟩).date)).length = 4 :=
    dateLabel_four_units m (by omega) d (by omega) (by omega) (by omega)
  obtain ⟨u1, u2, u3, u4, hu⟩ := exists_four_of_length _ hlen
  have key : buildDateColumn ⟨y, m, d⟩ =
      (List.range GRID_ROWS).map fun i =>
        ([Cell.blank, Cell.blank]
          ++ (parseTextToChars (formatDateDisplay ⟨y, m, d⟩).date).map Cell.glyphCell
          ++ [Cell.blank]
          ++ (parseTextToChars (formatDateDisplay ⟨y, m, d⟩).weekday).map Cell.glyphCell).getD
          i Cell.blank := rfl
  have hpw : parseTextToChars [w] = [{ char := [w], isTateChuYoko := false }] := rfl
  refine ⟨rfl, rfl, ?_, ?_⟩
  · simp [buildDateColumn]
  · rw [key, hu, hwc2, hpw, range_twelve]
    rfl

/-- Witness for C4 at the concrete date 2024-03-05 (a Tuesday): label 3月5日,
weekday 火, laid out as 2 blanks, four single units, 1 blank, 火, 4 trailing
blanks. -/
theorem buildDateColumn_layout_check :
    (formatDateDisplay ⟨2024, 3, 5⟩).date = ['3', '月', '5', '日'] ∧
    (formatDateDisplay ⟨2024, 3, 5⟩).weekday = ['火'] ∧
    buildDateColumn ⟨2024, 3, 5⟩ =
      [Cell.blank, Cell.blank,
       Cell.glyphCell { char := ['3'], isTateChuYoko := false },
       Cell.glyphCell { char := ['月'], isTateChuYoko := false },
       Cell.glyphCell { char := ['5'], isTateChuYoko := false },
       Cell.glyphCell { char := ['日'], isTateChuYoko := false },
       Cell.blank,
       Cell.glyphCell { char := ['火'], isTateChuYoko := false },
       Cell.blank, Cell.blank, Cell.blank, Cell.blank] := by
  have h := buildDateColumn_layout 2024 3 5 (by norm_num) (by norm_num) (by norm_num)
    (by norm_num) (by norm_num)
  refine ⟨h.1.trans (by decide), h.2.1.trans (by decide), h.2.2.2.trans (by decide)⟩

/-- C5: `handleCopyPreviousDay` reads the record list stored under the prior
calendar day; if a stored note exists it replaces the current columns
wholesale and persists them; if none exists it reports not-found and makes no
state mutation and no persist call. -/
theorem copyPreviousDay_branches (store : DateTriple → Option (List ContentRecord))
    (currentDate : DateTriple) (columns : List ContentRecord) :
    (∀ prevData, store (prevDay currentDate) = some prevData →
        handleCopyPreviousDay store currentDate columns =
          { columns := prevData, persisted := some prevData, foundPrevious := true }) ∧
    (store (prevDay currentDate) = none →
        handleCopyPreviousDay store currentDate columns =
          { columns := columns, persisted := none, foundPrevious := false }) := by
  constructor
  · intro prevData hp
    simp [handleCopyPreviousDay, hp]
  · intro hn
    simp [handleCopyPreviousDay, hn]

/-- Witness for C5 at a concrete input: an empty store signals not-found and
leaves the columns untouched with no persist. -/
theorem copyPreviousDay_branches_check :
    handleCopyPreviousDay (fun _ => none) ⟨2024, 3, 5⟩ [dummyRecord] =
      { columns := [dummyRecord], persisted := none, foundPrevious := false } :=
  (copyPreviousDay_branches (fun _ => none) ⟨2024, 3, 5⟩ [dummyRecord]).2 rfl

/-- C6: `moveRow` with an out-of-bounds target index is a no-op: the guard
fires, the handler returns early, and neither a state update nor a persist
call happens (encoded as the `none` result). -/
theorem moveRow_out_of_bounds_noop (columns : List ContentRecord)
    (index : Nat) (direction : Int)
    (h : (index : Int) + direction < 0 ∨
      (columns.length : Int) ≤ (index : Int) + direction) :
    moveRow columns index direction = none := by
  have hcond : ((index : Int) + direction < 0 ||
      decide ((columns.length : Int) ≤ (index : Int) + direction)) = true := by
    rcases h with h | h <;> simp [h]
  simp only [moveRow]
  rw [if_pos]
  exact hcond

/-- Witness for C6 at a concrete input: moving the first record further up is
a no-op. -/
theorem moveRow_out_of_bounds_noop_check :
    moveRow [dummyRecord] 0 (-1) = none :=
  moveRow_out_of_bounds_noop [dummyRecord] 0 (-1) (Or.inl (by norm_num))

/-- C7: `handleCheckStamp` with an empty or whitespace-only name rejects with
a validation alert before any store access (no check is appended); any other
name is remembered locally and appended to the date's `checks` log with a
server-assigned timestamp. -/
theorem checkStamp_validation (currentDate : DateTriple) (name : List Char) :
    (jsTrim name = [] →
        handleCheckStamp currentDate name =
          { validationError := true, savedViewerName := none,
            appendedCheck := none, hasCheckedSet := false }) ∧
    (jsTrim name ≠ [] →
        handleCheckStamp currentDate name =
          { validationError := false, savedViewerName := some name,
            appendedCheck := some (currentDate, ⟨name, Timestamp.server⟩),
            hasCheckedSet := true }) ∧
    (handleCheckStamp currentDate []).appendedCheck = none ∧
    (handleCheckStamp currentDate [' ', ' ', ' ']).appendedCheck = none := by
  refine ⟨?_, ?_, rfl, rfl⟩
  · intro h
    simp [handleCheckStamp, h]
  · intro h
    simp [handleCheckStamp, h]

/-- Witness for C7 at a concrete input: a non-blank name is appended with the
server timestamp and remembered. -/
theorem checkStamp_validation_check :
    handleCheckStamp ⟨2024, 3, 5⟩ ['花', '子'] =
      { validationError := false, savedViewerName := some ['花', '子'],
        appendedCheck := some (⟨2024, 3, 5⟩, ⟨['花', '子'], Timestamp.server⟩),
        hasCheckedSet := true } :=
  (checkStamp_validation ⟨2024, 3, 5⟩ ['花', '子']).2.1 (by decide)

/-- C8: `moveRow` with a valid index and an in-bounds target swaps the record
at `index` with its neighbor at `index + direction`, leaves every other
record unchanged in content and position, and preserves the length; records
move intact, so ids are never reshuffled. -/
theorem moveRow_swaps_neighbors (columns : List ContentRecord)
    (index : Nat) (direction : Int)
    (hidx : index < columns.length)
    (h0 : 0 ≤ (index : Int) + direction)
    (hlt : (index : Int) + direction < (columns.length : Int)) :
    ∃ newColumns, moveRow columns index direction = some newColumns ∧
      newColumns.length = columns.length ∧
      newColumns[((index : Int) + direction).toNat]? = columns[index]? ∧
      newColumns[index]? = columns[((index : Int) + direction).toNat]? ∧
      ∀ k, k ≠ index → k ≠ ((index : Int) + direction).toNat →
        newColumns[k]? = columns[k]? := by
  set t := ((index : Int) + direction).toNat with ht
  have htl : t < columns.length := by omega
  have hgi : columns.getD index dummyRecord = columns[index] := by
    simp [List.getD_eq_getElem?_getD, List.getElem?_eq_getElem hidx]
  have hgt : columns.getD t dummyRecord = columns[t] := by
    simp [List.getD_eq_getElem?_getD, List.getElem?_eq_getElem htl]
  have hmr : moveRow columns index direction =
      some ((columns.set index columns[t]).set t columns[index]) := by
    simp only [moveRow]
    rw [if_neg]
    · rw [← ht, hgi, hgt]
    · simp only [Bool.or_eq_true, decide_eq_true_eq, not_or]
      constructor <;> omega
  refine ⟨_, hmr, by simp, ?_, ?_, ?_⟩
  · by_cases hit : index = t
    · simp [List.getElem?_set, hit, htl, List.getElem?_eq_getElem htl]
    · simp [List.getElem?_set, htl, List.getElem?_eq_getElem hidx]
  · by_cases hit : index = t
    · simp [List.getElem?_set, hit, htl, List.getElem?_eq_getElem htl]
    · simp [List.getElem?_set, hit, Ne.symm hit, hidx, List.getElem?_eq_getElem htl]
  · intro k hki hkt
    simp [List.getElem?_set, Ne.symm hki, Ne.symm hkt]

/-- Witness for C8 at a concrete input: moving the first of two records down
swaps them. -/
theorem moveRow_swaps_neighbors_check :
    ∃ newColumns,
      moveRow [{ id := 1, type := "handout", text := [] },
               { id := 2, type := "homework", text := [] }] 0 1 = some newColumns ∧
      newColumns.length = 2 ∧
      newColumns[1]? = some { id := 1, type := "handout", text := [] } ∧
      newColumns[0]? = some { id := 2, type := "homework", text := [] } := by
  obtain ⟨nc, h1, h2, h3, h4, _⟩ := moveRow_swaps_neighbors
    [{ id := 1, type := "handout", text := [] },
     { id := 2, type := "homework", text := [] }] 0 1
    (by norm_num) (by norm_num) (by norm_num)
  exact ⟨nc, h1, h2, h3.trans (by decide), h4.trans (by decide)⟩

/-- C9: every category value outside the four marked members renders as a
blank marker with no glyph or color resolved and with no error: the marker
resolution returns nothing, the rendered cell is empty, and building and
rendering a full column stays total (12 rendered cells, the marker first). -/
theorem unknown_category_blank_marker (mt : String) (data : ContentRecord)
    (hdata : data.type = mt)
    (h : mt ≠ "homework" ∧ mt ≠ "contact" ∧ mt ≠ "belongings" ∧ mt ≠ "handout") :
    markContent mt = none ∧
    renderGridCell (Cell.markerCell mt) = CellContent.empty ∧
    ((buildColumn data).map renderGridCell).head? = some CellContent.empty ∧
    ((buildColumn data).map renderGridCell).length = GRID_ROWS := by
  obtain ⟨h1, h2, h3, h4⟩ := h
  have hmc : markContent mt = none := by
    simp [markContent, h1, h2, h3, h4]
  have hrc : renderGridCell (Cell.markerCell mt) = CellContent.empty := by
    simp [renderGridCell, hmc]
  refine ⟨hmc, hrc, ?_, by simp [buildColumn]⟩
  have hhead : (buildColumn data).head? = some (Cell.markerCell data.type) := by
    simp only [buildColumn, range_twelve, List.map_cons, List.map_nil, List.head?_cons]
    rfl
  rw [List.head?_map, hhead]
  simp [hdata, hrc]

/-- Witness for C9 at a concrete input: the category "mystery" renders as a
blank marker without interrupting the column. -/
theorem unknown_category_blank_marker_check :
    markContent "mystery" = none ∧
    renderGridCell (Cell.markerCell "mystery") = CellContent.empty ∧
    ((buildColumn { id := 1, type := "mystery", text := ['a'] }).map
      renderGridCell).head? = some CellContent.empty ∧
    ((buildColumn { id := 1, type := "mystery", text := ['a'] }).map
      renderGridCell).length = GRID_ROWS :=
  unknown_category_blank_marker "mystery" { id := 1, type := "mystery", text := ['a'] }
    rfl (by refine ⟨?_, ?_, ?_, ?_⟩ <;> decide)

end Renrakucho
